import Mathlib

/-!
Verification of the client-side i18n Translator class presented in the blog post
on building a small translation script (source file src/unnamed/part_002).

The post defines a JavaScript class Translator with:
  - getLanguage(): reads navigator.languages (first entry) or navigator.language
    as a fallback and returns the first two characters (substr(0, 2));
  - constructor(): stores getLanguage() in this._lang and a snapshot of all
    elements carrying a data-i18n attribute in this._elements;
  - load(lang = null): if lang is truthy it overwrites this._lang, then fetches
    /i18n/<lang>.json, parses it as JSON, calls this.translate(translation) on
    success, and logs an error message in the promise catch handler on failure;
  - translate(translation): for each captured element, splits its data-i18n
    attribute on the dot, resolves the resulting key list against the
    translation object via keys.reduce((obj, i) =&gt; obj[i], translation), and,
    when the resolved value is truthy, assigns it to element.innerHTML;
  - toggleLangTag(): writes this._lang into document.documentElement.lang when
    the two differ.

The embedding below models JavaScript values that can occur in a parsed
translation document (per the data model: nested mappings with string leaves,
plus the undefined and null sentinels produced by property access), JavaScript
property access including the TypeError raised when indexing into undefined or
null, truthiness, the implicit string conversion performed by an innerHTML
assignment, and the synchronous/asynchronous split of load (the synchronous
body that sets the language and issues the fetch, and the later settlement of
that fetch, so that overlapping load calls can be interleaved).

The model of property access is exact on a delimited fragment. An own field
of an object always shadows the prototype chain, so own-field reads are exact
for every key; but a key that misses every own field can still resolve a
value inherited from Object.prototype (for example toString), and property
access on a primitive string can resolve its length property, an index
property, or a method inherited from String.prototype. getProp models every
such miss as undefined, which matches JavaScript exactly when the accessed
key is a plain segment: not one of the property names every object or string
inherits per ECMA-262, not length, and not a digit-only key that could index
a string. The predicate plainSegment makes that fragment decidable, and the
theorems quantifying over failing key paths (where a miss is load-bearing)
carry it as a hypothesis; theorems whose hypotheses force the walk to end in
a resolved document value only traverse own fields and need no such guard.
Numeric, boolean and array JSON values are outside the data model of
translation documents (nested mappings with string leaves, per the post) and
are not represented.
-/

namespace I18n

/-- JavaScript values arising when a parsed translation document is walked by
property access: string leaves, nested objects (association lists of fields),
and the undefined/null sentinels. -/
inductive JSValue where
  | undefined : JSValue
  | null : JSValue
  | str (s : String) : JSValue
  | obj (fields : List (String × JSValue)) : JSValue

/-- Property access obj[k] in JavaScript, exact on the fragment delimited by
plainSegment below: reading a property of undefined or null throws a
TypeError (modelled as Except.error); on an object the own field wins when
present (exact for every key, since an own property always shadows the
prototype chain) and a missing own field yields undefined; property access
on a primitive string yields undefined. For a key outside the fragment (a
property name inherited from Object.prototype or String.prototype, the
string length property, or a digit-only key that can index a string) the
real language resolves a host value this model does not represent, so the
theorems about failing key paths assume plainSegment for the segments they
walk. -/
def getProp : JSValue → String → Except Unit JSValue
  | .undefined, _ => .error ()
  | .null, _ => .error ()
  | .str _, _ => .ok .undefined
  | .obj fields, k =>
      .ok (match fields.lookup k with
           | some v => v
           | none => .undefined)

/-- Model of keys.reduce((obj, i) =&gt; obj[i], translation): successive property
access starting from the document root, propagating a thrown TypeError. -/
def resolvePath : JSValue → List String → Except Unit JSValue
  | v, [] => .ok v
  | v, k :: ks =>
      match getProp v k with
      | .ok w => resolvePath w ks
      | .error e => .error e

/-- JavaScript truthiness of a value, as tested by the if (text) guard:
undefined and null are falsy, a string is truthy exactly when non-empty, and
an object is always truthy. -/
def truthy : JSValue → Bool
  | .undefined => false
  | .null => false
  | .str s => s != ""
  | .obj _ => true

/-- String conversion applied by the innerHTML assignment: a string is used as
is, and a plain object converts to the text [object Object]. -/
def toHTMLString : JSValue → String
  | .undefined => "undefined"
  | .null => "null"
  | .str s => s
  | .obj _ => "[object Object]"

/-- Model of JavaScript String.prototype.split with the separator used by the
source, a single dot, on the list of characters of the string. As in
JavaScript, the empty string splits to a single empty piece and consecutive
dots produce empty pieces. -/
def splitCharsOnDot : List Char → List (List Char)
  | [] => [[]]
  | c :: cs =>
      let rest := splitCharsOnDot cs
      if c = '.' then [] :: rest
      else
        match rest with
        | r :: rs => (c :: r) :: rs
        | [] => [[c]]

/-- Model of element.dataset.i18n.split(".") from the source. -/
def splitOnDot (s : String) : List String :=
  (splitCharsOnDot s.data).map String.mk

/-- One element captured in the constructor snapshot: its data-i18n attribute
value and its displayed content (innerHTML). -/
structure I18nElement where
  i18n : String
  innerHTML : String
deriving DecidableEq

/-- Property names at which a key miss on a translation-document value can
still resolve an inherited or exotic host value in JavaScript: the own
property names of Object.prototype (inherited by every JSON-parsed mapping
and, through the chain, by every string) and of String.prototype per
ECMA-262 including its Annex B legacy methods, plus the length property of
strings. -/
def builtinPropertyNames : List String :=
  ["constructor", "hasOwnProperty", "isPrototypeOf", "propertyIsEnumerable",
   "toLocaleString", "toString", "valueOf", "__proto__", "__defineGetter__",
   "__defineSetter__", "__lookupGetter__", "__lookupSetter__",
   "length", "at", "anchor", "big", "blink", "bold", "charAt", "charCodeAt",
   "codePointAt", "concat", "endsWith", "fixed", "fontcolor", "fontsize",
   "includes", "indexOf", "isWellFormed", "italics", "lastIndexOf",
   "localeCompare", "match", "matchAll", "normalize", "padEnd", "padStart",
   "repeat", "replace", "replaceAll", "search", "slice", "small", "split",
   "startsWith", "strike", "sub", "substr", "substring", "sup",
   "toLocaleLowerCase", "toLocaleUpperCase", "toLowerCase", "toUpperCase",
   "toWellFormed", "trim", "trimEnd", "trimLeft", "trimRight", "trimStart"]

/-- Decidable guard delimiting the fragment on which getProp is exact: a
plain segment is not one of the built-in property names above and not a
digit-only key (the conservative superset of the canonical numeric strings
that can index into a primitive string; the empty segment is also excluded
by this clause). On key paths made of plain segments, property access over
the values of a translation document is exactly: the own field when present,
undefined otherwise, and a TypeError on an undefined or null receiver. -/
def plainSegment (k : String) : Bool :=
  !builtinPropertyNames.contains k && !k.data.all Char.isDigit

/-- All key segments of all the given elements are plain, so a run of
translate over them stays inside the exactly modelled fragment. -/
def plainKeys (els : List I18nElement) : Bool :=
  els.all (fun el => (splitOnDot el.i18n).all plainSegment)

/-- Body of the forEach callback in translate, for a single element: split the
data-i18n key on dots, resolve it against the translation document, and when
the result is truthy assign it to innerHTML; a TypeError thrown by the reduce
propagates (Except.error). -/
def translateBody (translation : JSValue) (element : I18nElement) :
    Except Unit I18nElement :=
  let keys := splitOnDot element.i18n
  match resolvePath translation keys with
  | .ok text =>
      .ok (if truthy text then { element with innerHTML := toHTMLString text }
           else element)
  | .error e => .error e

/-- The translate method: iterate the element snapshot in order with forEach.
A TypeError thrown by the callback aborts the iteration: earlier elements keep
their updates, the current and all later elements are left as they were, and
the exception propagates to the caller of translate (returned as some ()). -/
def translate (translation : JSValue) :
    List I18nElement → List I18nElement × Option Unit
  | [] => ([], none)
  | e :: rest =>
      match translateBody translation e with
      | .ok e' =>
          let r := translate translation rest
          (e' :: r.1, r.2)
      | .error u => (e :: rest, some u)

/-- Environment read by getLanguage: navigator.languages (none models the
array being undefined in older browsers) and the fallback navigator.language
string. -/
structure Navigator where
  languages : Option (List String)
  language : String

/-- The getLanguage method: take navigator.languages[0] when the array exists,
otherwise navigator.language, and return its first two characters via
substr(0, 2). Indexing an existing but empty array yields undefined, on which
substr throws a TypeError (Except.error). -/
def getLanguage (navigator : Navigator) : Except Unit String :=
  let lang : Option String :=
    match navigator.languages with
    | some ls => ls.head?
    | none => some navigator.language
  match lang with
  | some l => .ok (l.take 2)
  | none => .error ()

/-- State of a Translator instance together with the pieces of the host page
it touches: the active language this._lang, the element snapshot
this._elements with their displayed contents, the lang attribute of the
document root (document.documentElement.lang), and the console error log. -/
structure Translator where
  lang : String
  elements : List I18nElement
  documentLang : String
  log : List String
deriving DecidableEq

/-- The toggleLangTag method: when document.documentElement.lang differs from
this._lang, set it to this._lang. The returned Boolean records whether the
attribute write was performed (true) or the call was a no-op (false). -/
def toggleLangTag (t : Translator) : Translator × Bool :=
  if t.documentLang ≠ t.lang then ({ t with documentLang := t.lang }, true)
  else (t, false)

/-- Message logged by the catch handler of load:
console.error of the text Could not load <lang>.json. -/
def errorMessage (lang : String) : String :=
  "Could not load " ++ lang ++ ".json."

/-- Events of one load invocation, split at its suspension point so that
overlapping invocations can interleave: call is the synchronous body of
load(lang) up to and including issuing the fetch, and settle is the later
settlement of that fetch, carrying some parsed document on success and none
when the fetch or the JSON parse failed. -/
inductive LoadEvent where
  | call (lang : Option String) : LoadEvent
  | settle (result : Option JSValue) : LoadEvent

/-- Effect of one event on the state. The call event models
if (lang) this._lang = lang (the empty string is falsy, so it does not
replace the language). The settle event models the promise chain: on a parsed
document it runs translate on the current element snapshot, and the catch
handler logs the error message (reading this._lang at settlement time) both
when the fetch itself failed and when translate threw a TypeError; element
updates made before such a throw persist. -/
def step (t : Translator) : LoadEvent → Translator
  | .call l =>
      match l with
      | some c => if c = "" then t else { t with lang := c }
      | none => t
  | .settle r =>
      match r with
      | some translation =>
          let res := translate translation t.elements
          { t with
              elements := res.1,
              log := if res.2.isSome then t.log ++ [errorMessage t.lang]
                     else t.log }
      | none => { t with log := t.log ++ [errorMessage t.lang] }

/-- Run of a sequence of interleaved load events on the single UI thread. -/
def run (t : Translator) (events : List LoadEvent) : Translator :=
  events.foldl step t

/-- The load method when its fetch settles without interleaving: the
synchronous body runs, the fetch for the language current at call time is
issued (fetchFile models which resource /i18n/<code>.json resolves to which
parsed document, with none for a failed fetch or parse), and its settlement is
processed. -/
def load (lang : Option String) (fetchFile : String → Option JSValue)
    (t : Translator) : Translator :=
  step (step t (.call lang)) (.settle (fetchFile (step t (.call lang)).lang))

/-- Effect of one fetch settlement on the displayed element contents alone. -/
def applySettle (r : Option JSValue) (els : List I18nElement) :
    List I18nElement :=
  match r with
  | some translation => (translate translation els).1
  | none => els

/-- The end-to-end example document of the post:
greeting maps to Hello World, and header is a nested mapping with title and
button leaves. -/
def endToEndDoc : JSValue :=
  .obj [("greeting", .str "Hello World"),
        ("header", .obj [("title", .str "Header"), ("button", .str "Click me!")])]

theorem step_call_elements (t : Translator) (l : Option String) :
    (step t (.call l)).elements = t.elements := by
  cases l with
  | none => rfl
  | some c => by_cases h : c = "" <;> simp [step, h]

theorem step_call_documentLang (t : Translator) (l : Option String) :
    (step t (.call l)).documentLang = t.documentLang := by
  cases l with
  | none => rfl
  | some c => by_cases h : c = "" <;> simp [step, h]

theorem step_call_log (t : Translator) (l : Option String) :
    (step t (.call l)).log = t.log := by
  cases l with
  | none => rfl
  | some c => by_cases h : c = "" <;> simp [step, h]

theorem step_settle_lang (t : Translator) (r : Option JSValue) :
    (step t (.settle r)).lang = t.lang := by
  cases r <;> rfl

theorem step_settle_documentLang (t : Translator) (r : Option JSValue) :
    (step t (.settle r)).documentLang = t.documentLang := by
  cases r <;> rfl

theorem step_settle_elements (t : Translator) (r : Option JSValue) :
    (step t (.settle r)).elements = applySettle r t.elements := by
  cases r <;> rfl

/-- Claim C1, counterexample: a load whose fetch succeeds while the document
root language marker differs from the active language leaves the marker
unchanged — load never invokes toggleLangTag, so the claimed marker update
does not happen. -/
theorem C1_counterexample :
    (load none (fun _ => some (.obj [])) ⟨"de", [], "en", []⟩).lang = "de" ∧
    (load none (fun _ => some (.obj [])) ⟨"de", [], "en", []⟩).documentLang = "en" ∧
    (load none (fun _ => some (.obj [])) ⟨"de", [], "en", []⟩).documentLang ≠
      (load none (fun _ => some (.obj [])) ⟨"de", [], "en", []⟩).lang :=
  ⟨rfl, rfl, by decide⟩

/-- Claim C1, amended: on successful retrieval load applies translate with the
retrieved document but does not itself touch the document root language
marker; that update is provided by the separate method toggleLangTag, which,
when the caller invokes it, leaves the marker equal to the active language
(writing it exactly when it differs). -/
theorem C1_amended (l : Option String) (fetchFile : String → Option JSValue)
    (t : Translator) (d : JSValue)
    (h : fetchFile (step t (.call l)).lang = some d) :
    (load l fetchFile t).documentLang = t.documentLang ∧
    (load l fetchFile t).elements = (translate d t.elements).1 ∧
    ∀ t' : Translator, (toggleLangTag t').1.documentLang = t'.lang := by
  refine ⟨?_, ?_, ?_⟩
  · unfold load
    rw [h, step_settle_documentLang, step_call_documentLang]
  · unfold load
    rw [h, step_settle_elements, step_call_elements]
    rfl
  · intro t'
    unfold toggleLangTag
    by_cases h' : t'.documentLang = t'.lang <;> simp [h']

/-- Claim C1, witness for the amended theorem at a concrete successful load. -/
theorem C1_witness :
    (load none (fun _ => some (.obj [("greeting", .str "Bonjour")]))
        ⟨"fr", [⟨"greeting", "Hi"⟩], "en", []⟩).documentLang = "en" ∧
    (load none (fun _ => some (.obj [("greeting", .str "Bonjour")]))
        ⟨"fr", [⟨"greeting", "Hi"⟩], "en", []⟩).elements =
      (translate (.obj [("greeting", .str "Bonjour")]) [⟨"greeting", "Hi"⟩]).1 ∧
    ∀ t' : Translator, (toggleLangTag t').1.documentLang = t'.lang :=
  C1_amended none (fun _ => some (.obj [("greeting", .str "Bonjour")]))
    ⟨"fr", [⟨"greeting", "Hi"⟩], "en", []⟩ (.obj [("greeting", .str "Bonjour")]) rfl

/-- Claim C2, counterexample: for the element keyed x.y and the document with
only the branch a.b, resolution fails at the missing segment x, yet translate
does not return silently — the reduce reads a property of undefined, which
throws a TypeError to the caller of translate (the some () component). The
element content is unchanged. -/
theorem C2_counterexample :
    translate (.obj [("a", .obj [("b", .str "X")])]) [⟨"x.y", "old"⟩] =
      ([⟨"x.y", "old"⟩], some ()) := rfl

/-- Claim C2, amended, on key paths of plain segments (keys that are not
prototype-inherited property names, not length, and not string index keys,
where a miss really yields undefined in JavaScript; outside that fragment a
failing own-field miss can instead resolve a truthy inherited or exotic
value and overwrite the element, as in C10): when the key walk completes and
yields a non-truthy value (resolution failing at the final segment, or
reaching a string early), the element is left unchanged and no error is
thrown; but when the walk indexes into undefined or null (an intermediate
segment missing), the element is still unchanged and translate throws a
TypeError to its caller, which inside load is absorbed by the catch handler
of the fetch chain. -/
theorem C2_amended (doc : JSValue) (e : I18nElement) (rest : List I18nElement) :
    (plainKeys (e :: rest) = true →
      ∀ v, resolvePath doc (splitOnDot e.i18n) = .ok v → truthy v = false →
      translate doc (e :: rest) =
        (e :: (translate doc rest).1, (translate doc rest).2)) ∧
    (plainKeys (e :: rest) = true →
      resolvePath doc (splitOnDot e.i18n) = .error () →
      translate doc (e :: rest) = (e :: rest, some ())) := by
  constructor
  · intro hplain v hres hv
    have hbody : translateBody doc e = .ok e := by
      simp [translateBody, hres, hv]
    simp [translate, hbody]
  · intro hplain hres
    have hbody : translateBody doc e = .error () := by
      simp [translateBody, hres]
    simp [translate, hbody]

/-- Claim C2, witness for the amended theorem: a benign miss at the final
segment (the plain key a.c against the branch a.b) leaves the element
unchanged and lets the following element be processed. -/
theorem C2_witness :
    translate (.obj [("a", .obj [("b", .str "X")])]) [⟨"a.c", "old"⟩, ⟨"z", "w"⟩] =
      ([⟨"a.c", "old"⟩, ⟨"z", "w"⟩], none) :=
  (C2_amended (.obj [("a", .obj [("b", .str "X")])]) ⟨"a.c", "old"⟩
    [⟨"z", "w"⟩]).1 rfl .undefined rfl rfl

/-- Claim C3: when the fetch for the attempted language fails, load only
appends the error message to the log; every element keeps its previous
content, the document root marker is unchanged, and the active language field
remains set to the attempted code (in particular to the caller-supplied code
when one was given). No exception propagates: load is total. -/
theorem C3 (l : Option String) (fetchFile : String → Option JSValue)
    (t : Translator) (h : fetchFile (step t (.call l)).lang = none) :
    load l fetchFile t =
      { step t (.call l) with
          log := t.log ++ [errorMessage (step t (.call l)).lang] } ∧
    (load l fetchFile t).elements = t.elements ∧
    (load l fetchFile t).documentLang = t.documentLang ∧
    (∀ c, l = some c → c ≠ "" → (load l fetchFile t).lang = c) := by
  have hload : load l fetchFile t =
      { step t (.call l) with
          log := (step t (.call l)).log ++ [errorMessage (step t (.call l)).lang] } := by
    unfold load
    rw [h]
    rfl
  refine ⟨?_, ?_, ?_, ?_⟩
  · rw [hload, step_call_log]
  · rw [hload]
    exact step_call_elements t l
  · rw [hload]
    exact step_call_documentLang t l
  · intro c hc hne
    subst hc
    rw [hload]
    show (step t (.call (some c))).lang = c
    simp [step, hne]

/-- Claim C3, witness: a concrete failed load of the code de logs the message
and leaves everything but the language field unchanged. -/
theorem C3_witness :
    load (some "de") (fun _ => none) ⟨"en", [⟨"greeting", "Hi"⟩], "en", []⟩ =
      ⟨"de", [⟨"greeting", "Hi"⟩], "en", ["Could not load de.json."]⟩ :=
  (C3 (some "de") (fun _ => none) ⟨"en", [⟨"greeting", "Hi"⟩], "en", []⟩ rfl).1

/-- Claim C4: an element whose full key path resolves to a non-empty string
leaf has its content overwritten with exactly that string during translate,
and the remaining elements are processed as usual; a two-segment path through
a document with branch a mapping b to x resolves to x; the key a.b splits
into the two segments; and the end-to-end example document of the post
translates the three elements keyed greeting, header.title and header.button
to exactly the corresponding leaf strings. -/
theorem C4 (doc : JSValue) (e : I18nElement) (rest : List I18nElement)
    (s a b x : String)
    (hres : resolvePath doc (splitOnDot e.i18n) = .ok (.str s)) (hs : s ≠ "") :
    translate doc (e :: rest) =
      ({ e with innerHTML := s } :: (translate doc rest).1,
        (translate doc rest).2) ∧
    resolvePath (.obj [(a, .obj [(b, .str x)])]) [a, b] = .ok (.str x) ∧
    splitOnDot "a.b" = ["a", "b"] ∧
    translate endToEndDoc
        [⟨"greeting", "g0"⟩, ⟨"header.title", "t0"⟩, ⟨"header.button", "b0"⟩] =
      ([⟨"greeting", "Hello World"⟩, ⟨"header.title", "Header"⟩,
        ⟨"header.button", "Click me!"⟩], none) := by
  refine ⟨?_, ?_, rfl, rfl⟩
  · have hbody : translateBody doc e = .ok { e with innerHTML := s } := by
      simp [translateBody, hres, truthy, toHTMLString, hs]
    simp [translate, hbody]
  · simp [resolvePath, getProp, List.lookup]

/-- Claim C4, witness at the header.title element of the end-to-end document. -/
theorem C4_witness :
    translate endToEndDoc [⟨"header.title", "t0"⟩] =
      ([⟨"header.title", "Header"⟩], none) :=
  (C4 endToEndDoc ⟨"header.title", "t0"⟩ [] "Header" "p" "q" "r" rfl
    (by decide)).1

/-- Claim C5: getLanguage takes the first entry of navigator.languages when
the list is available (here with at least one entry), otherwise the single
navigator.language string, and returns its first two characters; in
particular the list with head en-US yields en, and the fallback string fr-FR
with no list available yields fr. -/
theorem C5 (x : String) (xs : List String) (l : String) :
    getLanguage ⟨some (x :: xs), l⟩ = .ok (x.take 2) ∧
    getLanguage ⟨none, l⟩ = .ok (l.take 2) ∧
    getLanguage ⟨some ["en-US", "en", "de-DE"], l⟩ = .ok "en" ∧
    getLanguage ⟨none, "fr-FR"⟩ = .ok "fr" :=
  ⟨rfl, rfl, rfl, rfl⟩

/-- Claim C6, counterexample: the first element in the snapshot has the key
x.y whose intermediate segment is missing, so its resolution throws; the
second element, keyed greeting, resolves to the truthy leaf Hola, yet the
thrown TypeError aborts the forEach and the second element is never
updated — one element failing does block the others. -/
theorem C6_counterexample :
    resolvePath (.obj [("greeting", .str "Hola")]) (splitOnDot "greeting") =
      .ok (.str "Hola") ∧
    truthy (.str "Hola") = true ∧
    translate (.obj [("greeting", .str "Hola")])
        [⟨"x.y", "old1"⟩, ⟨"greeting", "old2"⟩] =
      ([⟨"x.y", "old1"⟩, ⟨"greeting", "old2"⟩], some ()) :=
  ⟨rfl, rfl, rfl⟩

/-- Claim C6, amended, on key paths of plain segments (where the model walk
classifies throwing exactly as JavaScript does; outside that fragment a
segment naming an inherited property resolves a host value instead of
throwing): element updates are independent only across elements whose
processing does not throw: whenever the head element completes (with an
update or with a benign resolution miss), the remaining elements are
processed exactly as they would be on their own; but when the head element
throws (an intermediate segment resolving to undefined or null), the
iteration aborts and no later element is resolved or updated. -/
theorem C6_amended (doc : JSValue) (e e' : I18nElement)
    (rest : List I18nElement) :
    (plainKeys (e :: rest) = true →
      translateBody doc e = .ok e' →
      translate doc (e :: rest) =
        (e' :: (translate doc rest).1, (translate doc rest).2)) ∧
    (plainKeys (e :: rest) = true →
      translateBody doc e = .error () →
      translate doc (e :: rest) = (e :: rest, some ())) := by
  constructor
  · intro hplain h
    simp [translate, h]
  · intro hplain h
    simp [translate, h]

/-- Claim C6, witness for the amended theorem: a head element with a benign
miss (the plain key missing against a document with only the branch title)
does not block the second element, which gets updated. -/
theorem C6_witness :
    translate (.obj [("title", .str "Hi")])
        [⟨"missing", "keep"⟩, ⟨"title", "old"⟩] =
      ([⟨"missing", "keep"⟩, ⟨"title", "Hi"⟩], none) :=
  (C6_amended (.obj [("title", .str "Hi")]) ⟨"missing", "keep"⟩
    ⟨"missing", "keep"⟩ [⟨"title", "old"⟩]).1 rfl rfl

/-- Claim C7: a caller-supplied non-empty language code replaces the active
language verbatim before fetching — the whole load call equals the settlement
of a fetch addressed by exactly the supplied code on the state whose language
was set to that code. No two-letter truncation is applied (the witness uses
the code en-US, which stays en-US) and the environment is never consulted
(load takes no Navigator input at all). -/
theorem C7 (c : String) (fetchFile : String → Option JSValue) (t : Translator)
    (h : c ≠ "") :
    load (some c) fetchFile t = step { t with lang := c } (.settle (fetchFile c)) ∧
    (load (some c) fetchFile t).lang = c := by
  have hcall : step t (.call (some c)) = { t with lang := c } := by
    simp [step, h]
  constructor
  · unfold load
    rw [hcall]
  · unfold load
    rw [hcall, step_settle_lang]

/-- Claim C7, witness: the code en-US is used verbatim for the fetch and the
stored language, with no truncation to en. -/
theorem C7_witness :
    load (some "en-US") (fun _ => none) ⟨"en", [], "de", []⟩ =
      step ⟨"en-US", [], "de", []⟩ (.settle none) ∧
    (load (some "en-US") (fun _ => none) ⟨"en", [], "de", []⟩).lang = "en-US" :=
  C7 "en-US" (fun _ => none) ⟨"en", [], "de", []⟩ (by decide)

/-- Claim C8: toggleLangTag is idempotent — after one call the marker equals
the active language, so a second consecutive call returns the state unchanged
and reports that no attribute write was performed; across the two calls the
write happens at most once (only possibly in the first). -/
theorem C8 (t : Translator) :
    (toggleLangTag (toggleLangTag t).1).1 = (toggleLangTag t).1 ∧
    (toggleLangTag (toggleLangTag t).1).2 = false := by
  unfold toggleLangTag
  by_cases h : t.documentLang = t.lang <;> simp [h]

/-- Claim C9, counterexample: load of de then load of es, where the es fetch
settles first and the de fetch settles last. The displayed content does come
from the last-settled fetch (Hallo, from the de document), but the stored
active language is es — it was written synchronously by the second call and
is never touched at settlement, so the last-settled fetch does not determine
the final stored active-language value as the claim states. -/
theorem C9_counterexample :
    (run ⟨"en", [⟨"greeting", "Hi"⟩], "en", []⟩
        [.call (some "de"), .call (some "es"),
         .settle (some (.obj [("greeting", .str "Hola")])),
         .settle (some (.obj [("greeting", .str "Hallo")]))]).elements =
      [⟨"greeting", "Hallo"⟩] ∧
    (run ⟨"en", [⟨"greeting", "Hi"⟩], "en", []⟩
        [.call (some "de"), .call (some "es"),
         .settle (some (.obj [("greeting", .str "Hola")])),
         .settle (some (.obj [("greeting", .str "Hallo")]))]).lang ≠ "de" :=
  ⟨rfl, by decide⟩

/-- Claim C9, amended: overlapping loads proceed independently with no
cancellation or queueing, and the final displayed element content is
determined by settlement order (each settlement applies its translate over
the previous one, so the last-settled fetch wins on the screen); the stored
active-language value, however, is written synchronously at invocation time
and therefore reflects the most recent call, regardless of which fetch
settles last. -/
theorem C9_amended (t : Translator) (la lb : String) (ra rb : Option JSValue)
    (ha : la ≠ "") (hb : lb ≠ "") :
    (run t [.call (some la), .call (some lb), .settle rb, .settle ra]).lang = lb ∧
    (run t [.call (some la), .call (some lb), .settle rb, .settle ra]).elements =
      applySettle ra (applySettle rb t.elements) := by
  have h1 : step t (.call (some la)) = { t with lang := la } := by
    simp [step, ha]
  have h2 : step { t with lang := la } (.call (some lb)) = { t with lang := lb } := by
    simp [step, hb]
  have hrun : run t [.call (some la), .call (some lb), .settle rb, .settle ra] =
      step (step { t with lang := lb } (.settle rb)) (.settle ra) := by
    simp [run, List.foldl, h1, h2]
  rw [hrun]
  constructor
  · rw [step_settle_lang, step_settle_lang]
  · rw [step_settle_elements, step_settle_elements]

/-- Claim C9, witness for the amended theorem at the concrete de/es race. -/
theorem C9_witness :
    (run ⟨"fr", [⟨"title", "T"⟩], "fr", []⟩
        [.call (some "de"), .call (some "es"),
         .settle (some (.obj [("title", .str "Titulo")])),
         .settle (some (.obj [("title", .str "Titel")]))]).lang = "es" ∧
    (run ⟨"fr", [⟨"title", "T"⟩], "fr", []⟩
        [.call (some "de"), .call (some "es"),
         .settle (some (.obj [("title", .str "Titulo")])),
         .settle (some (.obj [("title", .str "Titel")]))]).elements =
      applySettle (some (.obj [("title", .str "Titel")]))
        (applySettle (some (.obj [("title", .str "Titulo")])) [⟨"title", "T"⟩]) :=
  C9_amended ⟨"fr", [⟨"title", "T"⟩], "fr", []⟩ "de" "es"
    (some (.obj [("title", .str "Titel")]))
    (some (.obj [("title", .str "Titulo")])) (by decide) (by decide)

/-- Claim C10: the innerHTML write in translate is guarded only by the
truthiness of the resolved value, not by it being a string leaf: an element
whose path resolves to any truthy value has its content overwritten with the
string conversion of that value, and in particular a path resolving to a
nested mapping (which is always truthy) produces the visible non-string
update [object Object]. -/
theorem C10 (doc : JSValue) (e : I18nElement) (rest : List I18nElement)
    (v : JSValue) (hres : resolvePath doc (splitOnDot e.i18n) = .ok v)
    (hv : truthy v = true) :
    translate doc (e :: rest) =
      ({ e with innerHTML := toHTMLString v } :: (translate doc rest).1,
        (translate doc rest).2) ∧
    (∀ fields, toHTMLString (.obj fields) = "[object Object]") ∧
    (∀ fields, truthy (.obj fields) = true) := by
  refine ⟨?_, fun fields => rfl, fun fields => rfl⟩
  have hbody : translateBody doc e = .ok { e with innerHTML := toHTMLString v } := by
    simp [translateBody, hres, hv]
  simp [translate, hbody]

/-- Claim C10, witness: the one-segment key header against a document whose
header entry is a nested mapping overwrites the element content with the text
[object Object]. -/
theorem C10_witness :
    translate (.obj [("header", .obj [("title", .str "Header")])])
        [⟨"header", "old"⟩] =
      ([⟨"header", "[object Object]"⟩], none) :=
  (C10 (.obj [("header", .obj [("title", .str "Header")])]) ⟨"header", "old"⟩
    [] (.obj [("title", .str "Header")]) rfl rfl).1

end I18n
